import Mathlib

/-!
Shallow embedding of the project-management script
src/scripts/manage-project.ts of the voucherify-openapi repository.

The script parses CLI flags, validates them, optionally forks a
documentation version, cleans and repopulates the category tree of that
version, uploads the OpenAPI specification and the guide/reference docs,
retrying the reference-doc upload a bounded number of times.

JavaScript idioms are modelled explicitly:
  - an optional string value (possibly `undefined`) is `Option String`;
  - truthiness of a string value: `undefined` and the empty string are falsy;
  - template interpolation of `undefined` yields the text "undefined";
  - `String.prototype.includes` is `jsIncludes` (substring containment);
  - a `new Promise((resolve, reject) => ...)` callback outcome is
    `PromiseOutcome`: resolved with a boolean, or a thrown error.
Remote effects (fetch calls) are modelled as a trace of `RemoteCall` events
in the order the script issues them; responses of the remote service are
oracle parameters (the category lists and specification ids it returns).
-/

namespace ManageProject

/-- The apostrophe character, U+0027. -/
def apos : String := String.singleton (Char.ofNat 39)

/-- Substring containment on character lists: JavaScript
`l.includes(sub)` semantics (the empty list contains only the empty list). -/
def containsSub : List Char → List Char → Bool
  | [], sub => sub.isEmpty
  | c :: t, sub => sub.isPrefixOf (c :: t) || containsSub t sub

/-- JavaScript `s.includes(sub)`. -/
def jsIncludes (s sub : String) : Bool :=
  containsSub s.toList sub.toList

/-- JavaScript truthiness of an optional string: `undefined` and `""` are
falsy, every other string truthy. -/
def truthy : Option String → Bool
  | none => false
  | some s => s ≠ ""

/-- Template interpolation of an optional string: interpolating
`undefined` produces the text "undefined". -/
def jsInterp : Option String → String
  | none => "undefined"
  | some s => s

/-- JavaScript `a || b` on optional strings (minimist flag merging, e.g.
`options.version || options.v`). -/
def jsOrStr (a b : Option String) : Option String :=
  if truthy a then a else b

/-- `const mainVersion = "v2018-08-01"` (manage-project.ts line 12). -/
def mainVersion : String := "v2018-08-01"

/-- Lines 13-14 of manage-project.ts:
`const version = versionOption || versionTag ? ${mainVersion}-${versionTag} : undefined;`
The ternary condition is the disjunction `versionOption || versionTag`;
whenever either flag is truthy the result is the template
`mainVersion ++ "-" ++ versionTag`, interpolating `undefined` when
`versionTag` is absent. `versionOption` itself never reaches the result. -/
def computeVersion (versionOption versionTag : Option String) : Option String :=
  if truthy versionOption || truthy versionTag then
    some (mainVersion ++ "-" ++ jsInterp versionTag)
  else
    none

/-- `listOfGuideCategories` (manage-project.ts lines 16-24). -/
def listOfGuideCategories : List String :=
  ["Getting started", "Development", "Building blocks", "Campaigns Recipes",
   "Discounts Recipes", "Distributions Recipes", "More"]

/-- `listOfReferenceCategories` (manage-project.ts line 26). -/
def listOfReferenceCategories : List String := ["Introduction"]

/-- The outcome of `validateOptions`: which message it prints, or that the
options are valid. Each non-valid constructor corresponds to one of the
`console.log` branches returning `false`. -/
inductive ValidationResult where
  | helpShown
  | missingVersion
  | missingCreateOrUpdate
  | conflictingArgs
  | valid
deriving DecidableEq

/-- `validateOptions` (manage-project.ts lines 176-216), branch by branch:
help requested or no option at all prints help; a falsy version reports the
missing-version message; neither create nor update reports the missing-mode
message; both create and update report the conflicting-arguments message;
otherwise the options are valid. -/
def validateOptions (help : Bool) (version : Option String)
    (create update : Bool) : ValidationResult :=
  if help || (!truthy version && !create && !update) then
    ValidationResult.helpShown
  else if !truthy version then
    ValidationResult.missingVersion
  else if !create && !update then
    ValidationResult.missingCreateOrUpdate
  else if create && update then
    ValidationResult.conflictingArgs
  else
    ValidationResult.valid

/-- A category as returned by the remote service: a slug (remote-assigned
identifier) and a title. -/
structure Category where
  slug : String
  title : String
deriving DecidableEq

/-- One remote HTTP call issued by the script, with the arguments that
determine the request. -/
inductive RemoteCall where
  | createVersion (version : String)
  | getCategories (version : String)
  | deleteCategory (version slug : String)
  | createCategory (version title : String)
  | updateCategory (version slug typeField : String)
  | getApiSpecifications (version : String)
  | deleteSpecification (id : String)
deriving DecidableEq

/-- Whether a remote call is a category creation. -/
def isCreateCategory : RemoteCall → Bool
  | RemoteCall.createCategory _ _ => true
  | _ => false

/-- Result of a `cleanProject` run: the remote calls issued in order, and
whether the run completed (`completed = false` models the run crashing with
a lookup `TypeError` when a reference-category title is absent from the
re-fetched category list, line 298 reading `.slug` of `undefined`). -/
structure CleanResult where
  trace : List RemoteCall
  completed : Bool
deriving DecidableEq

/-- `cleanProject` (manage-project.ts lines 275-308). Oracle parameters:
`catsToDelete` is what the first `getAllCategories` returns, `allCats` what
the re-fetch returns, `specIds` the ids `getAllApiSpecifications` returns.
Phases, in source order: list + delete all categories; create the guide
categories followed by the reference categories one by one in list order;
re-fetch and update every reference-list category to type "reference"
(crashing when a title is not found); list + delete all specifications. -/
def cleanProject (version : String) (catsToDelete allCats : List Category)
    (specIds : List String) : CleanResult :=
  let deletePhase := RemoteCall.getCategories version ::
    catsToDelete.map (fun c => RemoteCall.deleteCategory version c.slug)
  let createPhase := (listOfGuideCategories ++ listOfReferenceCategories).map
    (fun t => RemoteCall.createCategory version t)
  let lookups := listOfReferenceCategories.map
    (fun t => allCats.find? (fun c => c.title == t))
  let updatePhase := RemoteCall.getCategories version ::
    lookups.filterMap (Option.map
      (fun c => RemoteCall.updateCategory version c.slug "reference"))
  if lookups.all Option.isSome then
    { trace := deletePhase ++ createPhase ++ updatePhase ++
        (RemoteCall.getApiSpecifications version ::
          specIds.map RemoteCall.deleteSpecification),
      completed := true }
  else
    { trace := deletePhase ++ createPhase ++ updatePhase, completed := false }

/-- `main` (manage-project.ts lines 28-55), up to its remote calls: when
`validateOptions` is not valid, main returns at once and no remote call is
issued; otherwise the fork request is issued first when `create` is set,
followed by the calls of the rest of the run (`rest`: cleanProject,
uploads), all against the computed version identifier. -/
def mainTrace (help : Bool) (version : Option String) (create update : Bool)
    (rest : List RemoteCall) : List RemoteCall :=
  if validateOptions help version create update = ValidationResult.valid then
    (if create then [RemoteCall.createVersion (jsInterp version)] else []) ++ rest
  else
    []

/-- The outcome of one `exec` subprocess invocation, as seen by its
callback: `error` is `error?.toString?.()` (`none` when `error` is null),
`stdout` and `stderr` the captured output streams. -/
structure ExecResult where
  error : Option String
  stdout : String
  stderr : String
deriving DecidableEq

/-- What a `new Promise((resolve, reject) => ...)` executor does: resolve
with a boolean, invoke the reject continuation, or throw. -/
inductive PromiseOutcome where
  | resolved (b : Bool)
  | rejected (msg : String)
  | threw (msg : String)
deriving DecidableEq

/-- The upload-timeout text special-cased by `uploadOpenApiFile`
(manage-project.ts line 161). -/
def timeoutMessage : String :=
  "We" ++ apos ++
    "re sorry, your upload request timed out. Please try again or split your file up into smaller chunks."

/-- The category-not-found stderr text special-cased by
`updateReferenceDocs` (manage-project.ts line 225). -/
def categoryNotFoundMessage : String :=
  "We couldn" ++ apos ++ "t save this doc (Unable to find a category with the slug " ++
    apos ++ "voucherify-api" ++ apos ++ ")"

/-- The stdout text `updateReferenceDocs` recognises as success
(manage-project.ts line 230). -/
def successMessage : String := "successfully created"

/-- `error?.toString?.()?.includes?.(msg)` on a modelled error value:
falsy when the error is null. -/
def errIncludes (error : Option String) (msg : String) : Bool :=
  match error with
  | none => false
  | some e => jsIncludes e msg

/-- `error?.toString?.() || "OPEN API FILE WAS NOT UPLOADED"`: the thrown
message of `uploadOpenApiFile`, falling back when the error text is falsy. -/
def uploadErrorText (error : Option String) : String :=
  match error with
  | none => "OPEN API FILE WAS NOT UPLOADED"
  | some e => if e ≠ "" then e else "OPEN API FILE WAS NOT UPLOADED"

/-- The `exec` callback of `uploadOpenApiFile` (manage-project.ts lines
156-171): resolves true when the error text contains the timeout message or
stdout is truthy; otherwise throws the error text (or a fallback message). -/
def uploadOpenApiFile (r : ExecResult) : PromiseOutcome :=
  if errIncludes r.error timeoutMessage || r.stdout ≠ "" then
    PromiseOutcome.resolved true
  else
    PromiseOutcome.threw (uploadErrorText r.error)

/-- The `exec` callback of `updateReferenceDocs` (manage-project.ts lines
222-235): resolves false when stderr contains the category-not-found text,
true when stdout contains "successfully created", false otherwise. Every
branch resolves; the reject continuation is never invoked. -/
def updateReferenceDocsCallback (r : ExecResult) : PromiseOutcome :=
  if jsIncludes r.stderr categoryNotFoundMessage then
    PromiseOutcome.resolved false
  else if jsIncludes r.stdout successMessage then
    PromiseOutcome.resolved true
  else
    PromiseOutcome.resolved false

/-- The boolean `updateReferenceDocs(version)` resolves to. -/
def updateReferenceDocs (r : ExecResult) : Bool :=
  match updateReferenceDocsCallback r with
  | PromiseOutcome.resolved b => b
  | _ => false

/-- Result of the bounded retry loop: whether it completed without
throwing, the 1-based attempt indices at which the upload collaborator was
invoked, and how many fixed-delay sleeps were performed. -/
structure LoopResult where
  ok : Bool
  tried : List Nat
  sleeps : Nat
deriving DecidableEq

/-- One unrolling of the `for (let i = 1; i <= max; i++)` loop of
`uploadReferenceDocsWithMaxNumberOfAttempts` (manage-project.ts lines
63-73): `i` is the current attempt index, `remaining` the number of loop
iterations left (`max - i + 1`). A successful attempt breaks out of the
loop; a failed attempt at the last iteration throws; otherwise the loop
sleeps the fixed delay and continues with the next attempt. -/
def uploadLoopGo (attemptResult : Nat → Bool) (i : Nat) : Nat → LoopResult
  | 0 => { ok := true, tried := [], sleeps := 0 }
  | remaining + 1 =>
    if attemptResult i then
      { ok := true, tried := [i], sleeps := 0 }
    else if remaining = 0 then
      { ok := false, tried := [i], sleeps := 0 }
    else
      let r := uploadLoopGo attemptResult (i + 1) remaining
      { ok := r.ok, tried := i :: r.tried, sleeps := r.sleeps + 1 }

/-- `uploadReferenceDocsWithMaxNumberOfAttempts` (manage-project.ts lines
57-74): runs the upload collaborator starting at attempt 1 with
`maxAttempts` iterations available (default 6 in the source). -/
def uploadReferenceDocsWithMaxNumberOfAttempts (attemptResult : Nat → Bool)
    (maxAttempts : Nat) : LoopResult :=
  uploadLoopGo attemptResult 1 maxAttempts

/-! ## Theorems about the embedded script -/

/-- Claim C1, evaluated at the failing input: supplying
`--version=v2018-08-01-piotr-123` with no versionTag (the usage shown by the
script's own help text) makes the run use the identifier
"v2018-08-01-undefined", not the supplied value, because the ternary on
lines 13-14 interpolates `versionTag` regardless of which flag was given;
the versionTag-only half of the claim does hold. -/
theorem c1_version_flag_evaluation :
    computeVersion (some "v2018-08-01-piotr-123") none = some "v2018-08-01-undefined" ∧
    ("v2018-08-01-undefined" : String) ≠ "v2018-08-01-piotr-123" ∧
    computeVersion none (some "piotr-123") = some (mainVersion ++ "-" ++ "piotr-123") := by
  refine ⟨rfl, by decide, rfl⟩

/-- Claim C2, counterexample: an invocation supplying BOTH version and
versionTag (so not exactly one of them) together with `create` passes
validation and issues a remote fork call, instead of aborting with zero
remote calls as the claim requires. -/
theorem c2_counterexample :
    mainTrace false (computeVersion (some "v2018-08-01-x") (some "tag")) true false []
      = [RemoteCall.createVersion "v2018-08-01-tag"] ∧
    [RemoteCall.createVersion "v2018-08-01-tag"] ≠ ([] : List RemoteCall) := by
  refine ⟨by decide, by decide⟩

/-- Claim C2 as amended: when the computed version is falsy (neither flag
supplied a truthy value) or create and update are both present or both
absent, the run issues zero remote calls; and when the only problem is
supplying both create and update (version truthy, no help flag), the
reported message is the conflicting-arguments one. The code does not
enforce "exactly one of version/versionTag": both flags together still
yield one truthy merged identifier and the run proceeds. -/
theorem c2_invalid_options_no_remote_calls (help : Bool)
    (versionOption versionTag : Option String) (create update : Bool)
    (rest : List RemoteCall)
    (h : truthy (computeVersion versionOption versionTag) = false ∨ create = update) :
    mainTrace help (computeVersion versionOption versionTag) create update rest = [] ∧
    (help = false ∧ truthy (computeVersion versionOption versionTag) = true ∧
        create = true ∧ update = true →
      validateOptions help (computeVersion versionOption versionTag) create update
        = ValidationResult.conflictingArgs) := by
  cases hb : truthy (computeVersion versionOption versionTag) <;>
    cases help <;> cases create <;> cases update <;>
      simp_all [mainTrace, validateOptions]

/-- Claim C2 witness: both create and update supplied with a truthy
version: no remote call, conflicting-arguments message. -/
theorem c2_invalid_options_witness :
    mainTrace false (computeVersion (some "v2018-08-01-x") none) true true [] = [] ∧
    validateOptions false (computeVersion (some "v2018-08-01-x") none) true true
      = ValidationResult.conflictingArgs := by
  have h := c2_invalid_options_no_remote_calls false (some "v2018-08-01-x") none true true []
    (Or.inr rfl)
  exact ⟨h.1, h.2 ⟨rfl, by decide, rfl, rfl⟩⟩

/-- Claim C5, counterexample: a reference-doc upload outcome whose stderr
does not contain the category-not-found text (and which is not a success)
still resolves false, and the retry loop then issues a second attempt: the
retryable class is not limited to the category-not-found condition. -/
theorem c5_counterexample :
    updateReferenceDocs { error := none, stdout := "", stderr := "permission denied" } = false ∧
    jsIncludes "permission denied" categoryNotFoundMessage = false ∧
    (uploadReferenceDocsWithMaxNumberOfAttempts
        (fun i => updateReferenceDocs
          (if i = 1 then { error := none, stdout := "", stderr := "permission denied" }
           else { error := none, stdout := successMessage, stderr := "" })) 6).tried
      = [1, 2] := by
  refine ⟨by decide, by decide, by decide⟩

/-- Claim C5 as amended: an upload attempt resolves false — the outcome the
retry loop treats as retryable — exactly when its stderr contains the
category-not-found text or its stdout lacks the success text; every
non-success outcome is retryable, the category-not-found condition being
one explicitly recognised case, not the only one. -/
theorem c5_retryable_class (r : ExecResult) :
    updateReferenceDocs r = false ↔
      (jsIncludes r.stderr categoryNotFoundMessage = true ∨
        jsIncludes r.stdout successMessage = false) := by
  unfold updateReferenceDocs updateReferenceDocsCallback
  by_cases h1 : jsIncludes r.stderr categoryNotFoundMessage <;>
    by_cases h2 : jsIncludes r.stdout successMessage <;> simp [h1, h2]

/-- Claim C6: with an attempt budget of 2 and a collaborator failing on
every call, the retry loop throws (ok = false) after invoking the
collaborator at exactly attempts 1 and 2 — never a third — with one
fixed-delay sleep between them. -/
theorem c6_always_failing_two_attempts (attemptResult : Nat → Bool)
    (h : ∀ i, attemptResult i = false) :
    uploadReferenceDocsWithMaxNumberOfAttempts attemptResult 2
      = { ok := false, tried := [1, 2], sleeps := 1 } := by
  unfold uploadReferenceDocsWithMaxNumberOfAttempts
  unfold uploadLoopGo
  unfold uploadLoopGo
  simp [h 1, h 2]

/-- Claim C6 witness: the always-failing collaborator realised by
`updateReferenceDocs` on an outcome carrying the category-not-found
stderr text. -/
theorem c6_always_failing_witness :
    uploadReferenceDocsWithMaxNumberOfAttempts
      (fun _ => updateReferenceDocs
        { error := none, stdout := "", stderr := categoryNotFoundMessage }) 2
      = { ok := false, tried := [1, 2], sleeps := 1 } :=
  c6_always_failing_two_attempts _ (fun _ => by decide)

/-- Claim C7: with an attempt budget of 3 and a collaborator failing on
attempts 1 and 2 and succeeding on attempt 3, the retry loop completes
successfully (ok = true) after invoking the collaborator at exactly
attempts 1, 2 and 3, with exactly 2 fixed-delay sleeps between attempts. -/
theorem c7_two_failures_then_success (attemptResult : Nat → Bool)
    (h1 : attemptResult 1 = false) (h2 : attemptResult 2 = false)
    (h3 : attemptResult 3 = true) :
    uploadReferenceDocsWithMaxNumberOfAttempts attemptResult 3
      = { ok := true, tried := [1, 2, 3], sleeps := 2 } := by
  unfold uploadReferenceDocsWithMaxNumberOfAttempts
  unfold uploadLoopGo
  unfold uploadLoopGo
  unfold uploadLoopGo
  simp [h1, h2, h3]

/-- Claim C7 witness: the collaborator realised by `updateReferenceDocs`,
failing twice with the category-not-found stderr text and succeeding on the
third call with the success stdout text. -/
theorem c7_two_failures_witness :
    uploadReferenceDocsWithMaxNumberOfAttempts
      (fun i => updateReferenceDocs
        (if i ≤ 2 then { error := none, stdout := "", stderr := categoryNotFoundMessage }
         else { error := none, stdout := successMessage, stderr := "" })) 3
      = { ok := true, tried := [1, 2, 3], sleeps := 2 } :=
  c7_two_failures_then_success _ (by decide) (by decide) (by decide)

/-- Claim C9: for every subprocess outcome, the `updateReferenceDocs`
callback resolves to a boolean; it never invokes the reject continuation
and never throws. -/
theorem c9_reference_upload_always_resolves (r : ExecResult) :
    (∃ b : Bool, updateReferenceDocsCallback r = PromiseOutcome.resolved b) ∧
    (∀ m, updateReferenceDocsCallback r ≠ PromiseOutcome.rejected m) ∧
    (∀ m, updateReferenceDocsCallback r ≠ PromiseOutcome.threw m) := by
  unfold updateReferenceDocsCallback
  by_cases h1 : jsIncludes r.stderr categoryNotFoundMessage <;>
    by_cases h2 : jsIncludes r.stdout successMessage <;> simp [h1, h2]

/-- Claim C3: in every run of `cleanProject`, the category-creation
requests of the issued trace are exactly the guide-category creations in
configured list order followed by the reference-category creations in
configured list order — guides strictly before references, whatever the
remote service returned for the category lists and specification ids. -/
theorem c3_category_creation_order (version : String)
    (catsToDelete allCats : List Category) (specIds : List String) :
    (cleanProject version catsToDelete allCats specIds).trace.filter isCreateCategory
      = listOfGuideCategories.map (RemoteCall.createCategory version) ++
        listOfReferenceCategories.map (RemoteCall.createCategory version) := by
  cases hf : allCats.find? (fun c => c.title == "Introduction") with
  | none =>
    simp [cleanProject, listOfGuideCategories, listOfReferenceCategories, hf,
      List.filter_append, List.filter_map, Function.comp_def, isCreateCategory]
  | some c0 =>
    simp [cleanProject, listOfGuideCategories, listOfReferenceCategories, hf,
      List.filter_append, List.filter_map, Function.comp_def, isCreateCategory]

/-- Claim C4: the OpenAPI-upload callback resolves successfully exactly
when stdout is truthy (an ordinary success) or the error text contains the
upload-timeout message; in every other case — in particular any other
error text with empty stdout — it throws (the error text, or a fallback
message when the error is absent or empty). -/
theorem c4_upload_openapi_success_iff (r : ExecResult) :
    (uploadOpenApiFile r = PromiseOutcome.resolved true ↔
      (r.stdout ≠ "" ∨ ∃ e, r.error = some e ∧ jsIncludes e timeoutMessage = true)) ∧
    (uploadOpenApiFile r = PromiseOutcome.threw (uploadErrorText r.error) ↔
      (r.stdout = "" ∧ ∀ e, r.error = some e → jsIncludes e timeoutMessage = false)) := by
  obtain ⟨err, out, serr⟩ := r
  unfold uploadOpenApiFile errIncludes
  cases err with
  | none => by_cases ho : out = "" <;> simp [ho]
  | some e =>
    by_cases ho : out = "" <;> by_cases he : jsIncludes e timeoutMessage <;>
      simp [ho, he]

/-- Claim C8: in a completed `cleanProject` run, every configured
reference-category title has a matching category in the re-fetched list
whose slug received an update to kind "reference", and every kind-update
request of the trace carries kind "reference" and targets the slug of a
re-fetched category whose title is in the reference list — no update is
issued for a category whose title is outside that list. -/
theorem c8_reference_kind_updates (version : String)
    (catsToDelete allCats : List Category) (specIds : List String)
    (h : (cleanProject version catsToDelete allCats specIds).completed = true) :
    (∀ t ∈ listOfReferenceCategories, ∃ c, c ∈ allCats ∧ c.title = t ∧
        RemoteCall.updateCategory version c.slug "reference"
          ∈ (cleanProject version catsToDelete allCats specIds).trace) ∧
    (∀ v slug ty, RemoteCall.updateCategory v slug ty
          ∈ (cleanProject version catsToDelete allCats specIds).trace →
        ty = "reference" ∧ ∃ c, c ∈ allCats ∧ c.slug = slug ∧
          c.title ∈ listOfReferenceCategories) := by
  cases hf : allCats.find? (fun c => c.title == "Introduction") with
  | none =>
    simp [cleanProject, listOfReferenceCategories, hf] at h
  | some c0 =>
    have hc0 : c0 ∈ allCats := List.mem_of_find?_eq_some hf
    have ht0 : c0.title = "Introduction" := by
      have := List.find?_some hf
      simpa using this
    constructor
    · intro t htl
      refine ⟨c0, hc0, ?_, ?_⟩
      · simp [listOfReferenceCategories] at htl
        simp [htl, ht0]
      · simp [cleanProject, listOfGuideCategories, listOfReferenceCategories, hf,
          List.mem_append]
    · intro v slug ty hmem
      simp [cleanProject, listOfGuideCategories, listOfReferenceCategories, hf,
        List.mem_append, List.mem_map] at hmem
      obtain ⟨hv, hs, hty⟩ := hmem
      exact ⟨hty, ⟨c0, hc0, by simp [hs], by simp [listOfReferenceCategories, ht0]⟩⟩

/-- Claim C8 witness: a completed run over a re-fetched list holding one
category titled "Introduction" with slug "introduction". -/
theorem c8_reference_kind_updates_witness :
    (∀ t ∈ listOfReferenceCategories, ∃ c,
        c ∈ [Category.mk "introduction" "Introduction"] ∧ c.title = t ∧
        RemoteCall.updateCategory "v" c.slug "reference"
          ∈ (cleanProject "v" [] [Category.mk "introduction" "Introduction"] []).trace) ∧
    (∀ v slug ty, RemoteCall.updateCategory v slug ty
          ∈ (cleanProject "v" [] [Category.mk "introduction" "Introduction"] []).trace →
        ty = "reference" ∧ ∃ c, c ∈ [Category.mk "introduction" "Introduction"] ∧
          c.slug = slug ∧ c.title ∈ listOfReferenceCategories) :=
  c8_reference_kind_updates "v" [] [Category.mk "introduction" "Introduction"] []
    (by decide)

/-- Claim C10: a `cleanProject` run completes exactly when every configured
reference-category title appears among the re-fetched categories — under
that precondition the slug lookup never fails — and a run whose re-fetched
list lacks such a title crashes (the lookup `TypeError`), never reaching
the API-specification phase. -/
theorem c10_reference_lookup_totality (version : String)
    (catsToDelete allCats : List Category) (specIds : List String) :
    ((cleanProject version catsToDelete allCats specIds).completed = true ↔
      ∀ t ∈ listOfReferenceCategories, ∃ c, c ∈ allCats ∧ c.title = t) ∧
    ((cleanProject version catsToDelete allCats specIds).completed = false →
      RemoteCall.getApiSpecifications version
        ∉ (cleanProject version catsToDelete allCats specIds).trace) := by
  cases hf : allCats.find? (fun c => c.title == "Introduction") with
  | none =>
    have hno : ¬ ∃ c, c ∈ allCats ∧ c.title = "Introduction" := by
      intro ⟨c, hc, ht⟩
      have := List.find?_eq_none.mp hf c hc
      simp [ht] at this
    simp [cleanProject, listOfReferenceCategories, hf, hno, List.mem_append,
      List.mem_map]
  | some c0 =>
    have hyes : ∃ c, c ∈ allCats ∧ c.title = "Introduction" := by
      refine ⟨c0, List.mem_of_find?_eq_some hf, ?_⟩
      have := List.find?_some hf
      simpa using this
    simp [cleanProject, listOfReferenceCategories, hf, hyes]

end ManageProject
